import Mathlib

/-!
Shallow embedding of `src/telegramPolling.js` (class `TelegramBotPolling`).

The class is a long-polling lifecycle controller around three external
collaborators of the bot object: `bot.getUpdates(params)` (the fetch),
`bot._request('setWebHook')` (webhook unregistration) and
`bot.processUpdate(update)` (the downstream processor), plus the bot's
event emitter.  The embedding models:

* the mutable fields of the object (`options.interval`,
  `options.params.offset`, `options.params.timeout`, `_lastUpdate`,
  `_lastRequest`, `_abort`, `_pollingTimeout`, `_isPollingActive`) and the
  two pieces of bot configuration the methods read
  (`bot.options.badRejection`, whether `polling_error` listeners exist)
  as a `State` record; the promise-valued field `_lastRequest` and the
  timer handle `_pollingTimeout` are abstracted to "is non-null" /
  "a timer is pending" booleans, and a ghost counter `chains` tracks how
  many live cycle chains (a pending request or a pending next-cycle
  timer continuation in the event loop) exist;
* the outcomes of the external calls as oracles (`CycleOracle`), since the
  transport and the business logic are outside this repository;
* every observable action (event emission, console output, outgoing call,
  processor invocation, timer scheduling) as an `Effect`, so each method
  returns its successor state together with the ordered list of effects
  it performed.

Promise chains are sequential here: within one `_polling` cycle the
stages `then`/`catch`/`finally` run in order with no interleaving, which
matches the single-threaded event loop.  The only concurrent actor,
`stop()`, is modelled by splitting a cycle at its unique suspension point
(the fetch): `cycleRemainder` is the part of an in-flight cycle that runs
after `stop` has executed synchronously, and `stopFinalize` is the
`.finally` handler `stop({cancel:false})` attaches to `_lastRequest`.
-/

/-- An update item.  The source only reads `update.update_id`
(`src/telegramPolling.js:136`). -/
structure Update where
  update_id : Int
deriving Repr, DecidableEq

/-- A JavaScript error as far as the source inspects it:
`err.response.statusCode` (`none` when there is no `response` object,
`src/telegramPolling.js:185`) and the `_processing` tag set at
`src/telegramPolling.js:141`. -/
structure Err where
  statusCode : Option Int := none
  processing : Bool := false
deriving Repr, DecidableEq

/-- The `ANOTHER_WEB_HOOK_USED = 409` (`src/telegramPolling.js:4`). -/
def ANOTHER_WEB_HOOK_USED : Int := 409

/-- Observable actions of the controller, in program order. -/
inductive Effect where
  /-- The `this.bot.emit(event, message)` for a lifecycle event
  (`polling_started`, `polling_restart`, `polling_stopped`). -/
  | emit (event : String)
  /-- The `this.bot.emit('polling_error', error)` (`src/telegramPolling.js:99`). -/
  | emitPollingError
  /-- The `this.bot.emit('error', new errors.FatalError(err))`
  (`src/telegramPolling.js:119`). -/
  | emitFatalError
  /-- The `console.error(...)` fallback / diagnostics. -/
  | consoleError
  /-- A call `this.bot.getUpdates({offset, limit?, timeout})`; `limit` is
  `none` for the main polling params, `some 1` for the recovery call. -/
  | fetch (offset : Int) (limit : Option Int) (timeout : Int)
  /-- The `this.bot._request('setWebHook')` (`src/telegramPolling.js:173`). -/
  | unsetWebHook
  /-- The `lastRequest.cancel(reason)` (`src/telegramPolling.js:69`). -/
  | cancelRequest
  /-- The `this.bot.processUpdate(update)` (`src/telegramPolling.js:139`);
  `offsetAtCall` is the value of `this.options.params.offset` at the
  moment the processor is invoked. -/
  | processUpdate (u : Update) (offsetAtCall : Int)
  /-- The `setTimeout(() => this._polling(), interval)`
  (`src/telegramPolling.js:160`). -/
  | schedule (interval : Int)
deriving Repr, DecidableEq

/-- Whether an effect is a `bot.getUpdates` call. -/
def Effect.isFetch : Effect → Bool
  | .fetch _ _ _ => true
  | _ => false

/-- Whether an effect is a `setTimeout` reschedule. -/
def Effect.isSchedule : Effect → Bool
  | .schedule _ => true
  | _ => false

/-- Whether an effect is a `bot.processUpdate` invocation. -/
def Effect.isProcessUpdate : Effect → Bool
  | .processUpdate _ _ => true
  | _ => false

/-- The controller's mutable state together with the bot configuration the
methods read, and the ghost counter `chains`. -/
structure State where
  /-- The `this.options.interval` (default 300). -/
  interval : Int := 300
  /-- The `this.options.params.offset` (default 0). -/
  offset : Int := 0
  /-- The `this.options.params.timeout` (default 10). -/
  timeoutParam : Int := 10
  /-- The `this._lastUpdate` (default 0). -/
  lastUpdate : Int := 0
  /-- whether `this._lastRequest` is non-null (default null). -/
  lastRequest : Bool := false
  /-- The `this._abort` (default false). -/
  abort : Bool := false
  /-- whether the `this._pollingTimeout` timer is pending. -/
  pollingTimeout : Bool := false
  /-- The `this._isPollingActive` (default false). -/
  isPollingActive : Bool := false
  /-- truthiness of `this.bot.options.badRejection`
  (`src/telegramPolling.js:109`). -/
  badRejection : Bool := false
  /-- The `this.bot.listeners('polling_error').length > 0`
  (`src/telegramPolling.js:96`). -/
  hasPollingErrorListeners : Bool := false
  /-- Ghost: number of live cycle chains in the event loop.  A chain is
  born when `start` invokes `_polling`, stays alive across a reschedule,
  and dies when its cycle ends without rescheduling (`_abort` set) or when
  `stop` cancels its pending request / clears its pending timer. -/
  chains : Nat := 0
deriving Repr, DecidableEq

/-- The state built by the constructor under default options
(`src/telegramPolling.js:7`). -/
def initialState : State := {}

/-- Results of the external calls one cycle can make, plus the clock.
`fetch1` is the main `bot.getUpdates(this.options.params)` call, `unset`
the `setWebHook` unregistration, `fetch2` the retried fetch after a 409,
`proc u` the outcome of `bot.processUpdate(u)` (`.error e` models a throw
of `e`), `recovery` the limit-1 fetch of `_handleProcessingError`, and
`now` the value of `Date.now()`. -/
structure CycleOracle where
  fetch1 : Except Err (List Update)
  unset : Except Err Unit := .ok ()
  fetch2 : Except Err (List Update) := .ok []
  proc : Update → Except Err Unit := fun _ => .ok ()
  recovery : Except Err (List Update) := .ok []
  now : Int := 0

/-- The `isPolling()` — `return !!this._lastRequest`
(`src/telegramPolling.js:86`). -/
def isPolling (st : State) : Bool :=
  st.lastRequest

/-- The `_error(error)` (`src/telegramPolling.js:95`): emit `polling_error`
when a listener exists, otherwise write to the console. -/
def errorReport (hasListeners : Bool) : List Effect :=
  if hasListeners then [.emitPollingError] else [.consoleError]

/-- The `_handleProcessingError(err)` (`src/telegramPolling.js:108`): without
`badRejection` just report; with it, first fetch once at the current
offset with `limit: 1, timeout: 0`, then report the error if that fetch
succeeded, or log three console lines and emit a `FatalError` if it
failed. -/
def handleProcessingError (badRejection hasListeners : Bool) (offset : Int)
    (recovery : Except Err (List Update)) : List Effect :=
  if badRejection = false then
    errorReport hasListeners
  else
    Effect.fetch offset (some 1) 0 ::
      match recovery with
      | .ok _ => errorReport hasListeners
      | .error _ => [.consoleError, .consoleError, .consoleError, .emitFatalError]

/-- The `_getUpdates()` (`src/telegramPolling.js:181`): fetch with the current
params; on an error whose `response.statusCode` is 409, unset the webhook
and retry once with the same params; any other error, and any error of the
unset or of the retry, propagates. -/
def getUpdatesRun (offset timeout : Int) (o : CycleOracle) :
    Except Err (List Update) × List Effect :=
  match o.fetch1 with
  | .ok us => (.ok us, [.fetch offset none timeout])
  | .error e =>
    if e.statusCode = some ANOTHER_WEB_HOOK_USED then
      match o.unset with
      | .ok _ => (o.fetch2, [.fetch offset none timeout, .unsetWebHook,
                             .fetch offset none timeout])
      | .error e2 => (.error e2, [.fetch offset none timeout, .unsetWebHook])
    else
      (.error e, [.fetch offset none timeout])

/-- The `updates.forEach` body (`src/telegramPolling.js:135`): for each
update in order set `params.offset = update.update_id + 1`, then invoke
the processor; a throw is tagged `_processing = true` and stops the batch.
Returns the final offset, the processor-invocation effects, and the
tagged error if one was thrown. -/
def processUpdates (proc : Update → Except Err Unit) :
    List Update → Int → Int × List Effect × Option Err
  | [], off => (off, [], none)
  | u :: rest, _ =>
    let off1 := u.update_id + 1
    match proc u with
    | .ok _ =>
      let r := processUpdates proc rest off1
      (r.1, .processUpdate u off1 :: r.2.1, r.2.2)
    | .error e =>
      (off1, [.processUpdate u off1], some { e with processing := true })

/-- The `.catch` stage of `_polling` (`src/telegramPolling.js:147`): an
untagged error goes to `_error`; a tagged one has its tag deleted and goes
to `_handleProcessingError`.  Neither touches the state. -/
def catchStage (st : State) (o : CycleOracle) (e : Err) : List Effect :=
  if e.processing = false then
    errorReport st.hasPollingErrorListeners
  else
    handleProcessingError st.badRejection st.hasPollingErrorListeners
      st.offset o.recovery

/-- The `.finally` stage of `_polling` (`src/telegramPolling.js:155`): if
`_abort` is set, the chain ends; otherwise schedule the next cycle after
`interval` milliseconds. -/
def finallyStage (st : State) : State × List Effect :=
  if st.abort then
    ({ st with chains := st.chains - 1 }, [])
  else
    ({ st with pollingTimeout := true }, [.schedule st.interval])

/-- The `then`/`catch` stages of `_polling` applied to the fetch result
(`src/telegramPolling.js:130-154`): on success record `_lastUpdate`,
process the batch (routing a tagged throw into the `catch`); on failure
run the `catch` stage. -/
def thenCatchStage (st : State) (o : CycleOracle)
    (res : Except Err (List Update)) : State × List Effect :=
  match res with
  | .ok updates =>
    let stU := { st with lastUpdate := o.now }
    let pr := processUpdates o.proc updates stU.offset
    let stP := { stU with offset := pr.1 }
    match pr.2.2 with
    | none => (stP, pr.2.1)
    | some e => (stP, pr.2.1 ++ catchStage stP o e)
  | .error e => (st, catchStage st o e)

/-- The part of one `_polling` cycle that runs after the fetch promise has
been created: the `then`, `catch` and `finally` stages, in order
(`src/telegramPolling.js:129-162`). -/
def cycleRemainder (st : State) (o : CycleOracle) : State × List Effect :=
  let fr := getUpdatesRun st.offset st.timeoutParam o
  let s1 := thenCatchStage st o fr.1
  let s2 := finallyStage s1.1
  (s2.1, fr.2 ++ s1.2 ++ s2.2)

/-- The `_polling()` (`src/telegramPolling.js:128`): store the new request in
`_lastRequest` (the timer that triggered this invocation, if any, is no
longer pending) and run the cycle. -/
def runCycle (st : State) (o : CycleOracle) : State × List Effect :=
  cycleRemainder { st with lastRequest := true, pollingTimeout := false } o

/-- Whether the promise a method returned was already resolved when it
returned (`Promise.resolve()` paths), or settles only later
(`lastRequest.finally(...)` in `stop({cancel: falsy})`). -/
inductive Settled where
  | resolvedNow
  | pendingFinalize
deriving Repr, DecidableEq

/-- The synchronous part of `stop(options)` (`src/telegramPolling.js:60`):
no-op when `_lastRequest` is null; otherwise null `_lastRequest`, clear
the timer, and either cancel the request, emit `polling_stopped` and
deactivate (cancel truthy), or set `_abort` and return
`lastRequest.finally(...)` (cancel falsy), whose handler is
`stopFinalize`. -/
def stop (cancel : Bool) (st : State) : State × List Effect × Settled :=
  if st.lastRequest = false then
    (st, [], .resolvedNow)
  else
    let st1 := { st with lastRequest := false, pollingTimeout := false }
    if cancel then
      ({ st1 with isPollingActive := false, chains := st1.chains - 1 },
       [.cancelRequest, .emit "polling_stopped"], .resolvedNow)
    else
      let chains1 := if st.pollingTimeout then st1.chains - 1 else st1.chains
      ({ st1 with abort := true, chains := chains1 }, [], .pendingFinalize)

/-- The `.finally` handler attached by `stop({cancel: falsy})`
(`src/telegramPolling.js:76`): runs after the in-flight chain settles;
clears `_abort`, deactivates, emits `polling_stopped`. -/
def stopFinalize (st : State) : State × List Effect :=
  ({ st with abort := false, isPollingActive := false },
   [.emit "polling_stopped"])

/-- Modelled from the spec: the effects an in-flight request produces after
`lastRequest.cancel(reason)` has been called on it.  The fetch and its
promise machinery live in the external transport layer (outside this
repository); per the spec, "the cancellation must propagate to the
underlying fetch so no further processing occurs from it", so a cancelled
request settles without running any continuation: it produces no effects
at all. -/
def cancelledRequestEffects : List Effect := []

/-- The `start(options)` (`src/telegramPolling.js:36`): when already active
and `restart` falsy, return `Promise.resolve()`; when active and `restart`
truthy, emit `polling_restart`, do a cancelling stop and run a fresh
cycle; when inactive, emit `polling_started`, set `_isPollingActive` and
run the first cycle.  Each `_polling` invocation from here starts a new
chain. -/
def start (restart : Bool) (st : State) (o : CycleOracle) :
    State × List Effect × Settled :=
  if st.isPollingActive then
    if restart = false then
      (st, [], .resolvedNow)
    else
      let s1 := stop true st
      let s2 := runCycle { s1.1 with chains := s1.1.chains + 1 } o
      (s2.1, .emit "polling_restart" :: s1.2.1 ++ s2.2, .resolvedNow)
  else
    let st1 := { st with isPollingActive := true }
    let s2 := runCycle { st1 with chains := st1.chains + 1 } o
    (s2.1, .emit "polling_started" :: s2.2, .resolvedNow)

/-- The spec's "max(update.id) + 1 taken over the updates of that batch"
uses this maximum (spec section 8); stated from the spec's words, for
comparison with what the implementation computes. -/
def maxUpdateId (us : List Update) : Int :=
  us.foldl (fun m u => max m u.update_id) 0

/-- An oracle whose main fetch succeeds with the given batch and whose
processor always succeeds. -/
def okOracle (us : List Update) : CycleOracle :=
  { fetch1 := .ok us }

/-- An oracle delivering the single update `{update_id: 5}` whose
processor throws. -/
def oThrow5 : CycleOracle :=
  { fetch1 := .ok [⟨5⟩], proc := fun _ => .error {} }

/-- A freshly started controller that has completed one (empty) cycle:
`_isPollingActive` is true, the previous cycle's promise has settled and
only the next-cycle timer is pending — the "active but between cycles"
state. -/
def stBetween : State :=
  (start false initialState (okOracle [])).1

/-- An active controller with a request in flight, one live chain. -/
def stActive : State :=
  { initialState with isPollingActive := true, lastRequest := true, chains := 1 }

/-! ### Helper lemmas -/

/-- When every processor call in the batch succeeds, the batch is
processed completely, each update at offset `update_id + 1`, and no
error is tagged. -/
theorem processUpdates_allOk (proc : Update → Except Err Unit) :
    ∀ (us : List Update) (off : Int), (∀ u ∈ us, proc u = .ok ()) →
      (processUpdates proc us off).2.1
          = us.map (fun u => Effect.processUpdate u (u.update_id + 1)) ∧
        (processUpdates proc us off).2.2 = none
  | [], off, _ => by simp [processUpdates]
  | u :: rest, off, hok => by
    have hu : proc u = .ok () := hok u (by simp)
    have ih := processUpdates_allOk proc rest (u.update_id + 1)
      (fun v hv => hok v (List.mem_cons_of_mem u hv))
    simp [processUpdates, hu, ih.1, ih.2]

/-- When every processor call succeeds, the final offset of a nonempty
batch is the id of its last update, plus one. -/
theorem processUpdates_allOk_offset (proc : Update → Except Err Unit) :
    ∀ (us : List Update) (off : Int) (h : us ≠ []),
      (∀ u ∈ us, proc u = .ok ()) →
      (processUpdates proc us off).1 = (us.getLast h).update_id + 1
  | [], _, h, _ => absurd rfl h
  | [u], off, _, hok => by
    have hu : proc u = .ok () := hok u (by simp)
    simp [processUpdates, hu]
  | u :: v :: rest, off, _, hok => by
    have hu : proc u = .ok () := hok u (by simp)
    have ih := processUpdates_allOk_offset proc (v :: rest) (u.update_id + 1)
      (by simp) (fun w hw => hok w (List.mem_cons_of_mem u hw))
    simpa [processUpdates, hu, List.getLast_cons] using ih

/-- Every processor invocation recorded by `processUpdates` happens with
the offset already advanced to that update's id plus one. -/
theorem processUpdates_offset_at_call (proc : Update → Except Err Unit) :
    ∀ (us : List Update) (off : Int) (v : Update) (ov : Int),
      Effect.processUpdate v ov ∈ (processUpdates proc us off).2.1 →
      ov = v.update_id + 1
  | [], _, _, _ => by simp [processUpdates]
  | u :: rest, off, v, ov => by
    intro hmem
    cases hu : proc u with
    | ok _ =>
      rw [processUpdates] at hmem
      simp [hu] at hmem
      rcases hmem with ⟨hv, hov⟩ | htail
      · simp [hv, hov]
      · exact processUpdates_offset_at_call proc rest (u.update_id + 1) v ov htail
    | error e =>
      rw [processUpdates] at hmem
      simp [hu] at hmem
      simp [hmem.1, hmem.2]

/-- The `finallyStage` never changes the offset. -/
theorem finallyStage_offset (st : State) :
    (finallyStage st).1.offset = st.offset := by
  cases h : st.abort <;> simp [finallyStage, h]

/-- The `finallyStage` never changes `_lastRequest`. -/
theorem finallyStage_lastRequest (st : State) :
    (finallyStage st).1.lastRequest = st.lastRequest := by
  cases h : st.abort <;> simp [finallyStage, h]

/-- The `finallyStage` never changes `_isPollingActive`. -/
theorem finallyStage_isPollingActive (st : State) :
    (finallyStage st).1.isPollingActive = st.isPollingActive := by
  cases h : st.abort <;> simp [finallyStage, h]

/-- The `then`/`catch` stages leave `_abort` unchanged. -/
theorem thenCatchStage_abort (st : State) (o : CycleOracle)
    (res : Except Err (List Update)) :
    (thenCatchStage st o res).1.abort = st.abort := by
  cases res with
  | ok us =>
    cases h : (processUpdates o.proc us st.offset).2.2 <;>
      simp [thenCatchStage, h]
  | error e => simp [thenCatchStage]

/-- The `then`/`catch` stages leave `interval` unchanged. -/
theorem thenCatchStage_interval (st : State) (o : CycleOracle)
    (res : Except Err (List Update)) :
    (thenCatchStage st o res).1.interval = st.interval := by
  cases res with
  | ok us =>
    cases h : (processUpdates o.proc us st.offset).2.2 <;>
      simp [thenCatchStage, h]
  | error e => simp [thenCatchStage]

/-- The `then`/`catch` stages leave the ghost chain counter unchanged. -/
theorem thenCatchStage_chains (st : State) (o : CycleOracle)
    (res : Except Err (List Update)) :
    (thenCatchStage st o res).1.chains = st.chains := by
  cases res with
  | ok us =>
    cases h : (processUpdates o.proc us st.offset).2.2 <;>
      simp [thenCatchStage, h]
  | error e => simp [thenCatchStage]

/-- The `then`/`catch` stages leave the pending-timer flag unchanged. -/
theorem thenCatchStage_pollingTimeout (st : State) (o : CycleOracle)
    (res : Except Err (List Update)) :
    (thenCatchStage st o res).1.pollingTimeout = st.pollingTimeout := by
  cases res with
  | ok us =>
    cases h : (processUpdates o.proc us st.offset).2.2 <;>
      simp [thenCatchStage, h]
  | error e => simp [thenCatchStage]

/-- The `then`/`catch` stages leave `_isPollingActive` unchanged. -/
theorem thenCatchStage_isPollingActive (st : State) (o : CycleOracle)
    (res : Except Err (List Update)) :
    (thenCatchStage st o res).1.isPollingActive = st.isPollingActive := by
  cases res with
  | ok us =>
    cases h : (processUpdates o.proc us st.offset).2.2 <;>
      simp [thenCatchStage, h]
  | error e => simp [thenCatchStage]

/-! ### Claims -/

/-- C1 (counterexample): the claim says the offset after a successfully
processed batch equals `max(update.id) + 1` over the batch.  The source
(`src/telegramPolling.js:136`) overwrites the offset with
`update.update_id + 1` for each update in array order, so for the batch
`[{update_id: 6}, {update_id: 5}]` the offset ends at `6`, while
`max + 1 = 7`. -/
theorem C1_counterexample :
    (runCycle initialState (okOracle [⟨6⟩, ⟨5⟩])).1.offset = 6 ∧
      maxUpdateId [⟨6⟩, ⟨5⟩] + 1 = 7 ∧
      (runCycle initialState (okOracle [⟨6⟩, ⟨5⟩])).1.offset ≠
        maxUpdateId [⟨6⟩, ⟨5⟩] + 1 := by
  refine ⟨rfl, rfl, by decide⟩

/-- C1 (amended): after a batch is fetched successfully and every
processor invocation succeeds, `params.offset` equals the id of the
*last* update of the batch plus one (which is `max(update.id) + 1`
whenever the batch ids arrive in non-decreasing order, as in the spec's
scenarios). -/
theorem C1_offset_after_batch (st : State) (o : CycleOracle)
    (us : List Update) (h : us ≠ []) (hf : o.fetch1 = .ok us)
    (hok : ∀ u ∈ us, o.proc u = .ok ()) :
    (runCycle st o).1.offset = (us.getLast h).update_id + 1 := by
  have hnone := (processUpdates_allOk o.proc us st.offset hok).2
  have hoff := processUpdates_allOk_offset o.proc us st.offset h hok
  simp [runCycle, cycleRemainder, getUpdatesRun, hf, thenCatchStage, hnone,
    finallyStage_offset, hoff]

/-- C1 (witness): the spec's own scenario, batch
`[{update_id: 5}, {update_id: 6}]` on a fresh controller, ends with
offset `7`. -/
theorem C1_offset_after_batch_witness :
    (runCycle initialState (okOracle [⟨5⟩, ⟨6⟩])).1.offset = 7 := by
  have h := C1_offset_after_batch initialState (okOracle [⟨5⟩, ⟨6⟩])
    [⟨5⟩, ⟨6⟩] (by decide) rfl (fun u _ => rfl)
  simpa using h

/-- C2: `start()` on an already-active controller with a falsy `restart`
returns `Promise.resolve()` without emitting anything, launching anything
or touching any state (`src/telegramPolling.js:37-40`): the existing
cycle chain is the only one. -/
theorem C2_start_idempotent (st : State) (o : CycleOracle)
    (hact : st.isPollingActive = true) :
    start false st o = (st, [], .resolvedNow) := by
  simp [start, hact]

/-- C2 (witness): on a concrete active controller, a second plain
`start()` is a no-op with a resolved outcome. -/
theorem C2_start_idempotent_witness :
    start false stActive (okOracle []) = (stActive, [], .resolvedNow) :=
  C2_start_idempotent stActive (okOracle []) rfl

/-- C3: `stop({cancel: true})` on a controller with a request in flight
(`src/telegramPolling.js:60-74`): it clears the pending timer, nulls
`_lastRequest`, cancels the in-flight request (whose cancelled promise —
modelled from the spec as `cancelledRequestEffects` — produces no
processor invocation), marks the controller inactive, emits
`polling_stopped`, and returns an already-resolved promise without
waiting for the cancelled operation. -/
theorem C3_stop_cancel (st : State) (hreq : st.lastRequest = true) :
    stop true st =
      ({ st with lastRequest := false, pollingTimeout := false,
                 isPollingActive := false, chains := st.chains - 1 },
       [.cancelRequest, .emit "polling_stopped"], .resolvedNow) ∧
      cancelledRequestEffects.all (fun e => !e.isProcessUpdate) = true := by
  refine ⟨by simp [stop, hreq], rfl⟩

/-- C3 (witness): `stop({cancel: true})` on the concrete in-flight state. -/
theorem C3_stop_cancel_witness :
    stop true stActive =
      ({ stActive with lastRequest := false, pollingTimeout := false,
                       isPollingActive := false, chains := 0 },
       [.cancelRequest, .emit "polling_stopped"], .resolvedNow) ∧
      cancelledRequestEffects.all (fun e => !e.isProcessUpdate) = true :=
  C3_stop_cancel stActive rfl

/-- C4: `stop({cancel: falsy})` on a controller with a cycle in flight
(`src/telegramPolling.js:75-80`): it sets `_abort` and returns
`lastRequest.finally(...)`, a promise that settles only after the
in-flight cycle does.  The in-flight cycle still processes every update
of its batch (and, `_abort` being set, does not reschedule); its state
is still active while it runs; only then does the finalize handler clear
`_abort`, mark the controller inactive and emit `polling_stopped`. -/
theorem C4_stop_graceful (st : State) (o : CycleOracle) (us : List Update)
    (hreq : st.lastRequest = true) (htim : st.pollingTimeout = false)
    (hf : o.fetch1 = .ok us) (hok : ∀ u ∈ us, o.proc u = .ok ()) :
    (stop false st).2 = ([], .pendingFinalize) ∧
    (stop false st).1.abort = true ∧
    (cycleRemainder (stop false st).1 o).2 =
      .fetch st.offset none st.timeoutParam ::
        us.map (fun u => Effect.processUpdate u (u.update_id + 1)) ∧
    (cycleRemainder (stop false st).1 o).1.isPollingActive
        = st.isPollingActive ∧
    (stopFinalize (cycleRemainder (stop false st).1 o).1).1.abort = false ∧
    (stopFinalize (cycleRemainder (stop false st).1 o).1).1.isPollingActive
        = false ∧
    (stopFinalize (cycleRemainder (stop false st).1 o).1).2
        = [.emit "polling_stopped"] := by
  have hall := processUpdates_allOk o.proc us st.offset hok
  refine ⟨by simp [stop, hreq, htim], by simp [stop, hreq, htim], ?_, ?_,
    by simp [stopFinalize], ?_, by simp [stopFinalize]⟩
  · simp [stop, hreq, htim, cycleRemainder, getUpdatesRun, hf,
      thenCatchStage, hall.1, hall.2, finallyStage]
  · simp [stop, hreq, htim, cycleRemainder,
      finallyStage_isPollingActive, thenCatchStage_isPollingActive]
  · simp [stopFinalize]

/-- C4 (witness): the graceful stop on the concrete in-flight state with
the batch `[{update_id: 5}]`. -/
theorem C4_stop_graceful_witness :
    (stop false stActive).2 = ([], .pendingFinalize) ∧
    (stop false stActive).1.abort = true ∧
    (cycleRemainder (stop false stActive).1 (okOracle [⟨5⟩])).2 =
      [.fetch 0 none 10, .processUpdate ⟨5⟩ 6] ∧
    (cycleRemainder (stop false stActive).1 (okOracle [⟨5⟩])).1.isPollingActive
        = true ∧
    (stopFinalize (cycleRemainder (stop false stActive).1
        (okOracle [⟨5⟩])).1).1.isPollingActive = false := by
  have h := C4_stop_graceful stActive (okOracle [⟨5⟩]) [⟨5⟩] rfl rfl rfl
    (fun u _ => rfl)
  exact ⟨h.1, h.2.1, by simpa using h.2.2.1, by simpa using h.2.2.2.1,
    by simpa using h.2.2.2.2.2.1⟩

/-- The `then`/`catch` stages leave `_lastRequest` unchanged. -/
theorem thenCatchStage_lastRequest (st : State) (o : CycleOracle)
    (res : Except Err (List Update)) :
    (thenCatchStage st o res).1.lastRequest = st.lastRequest := by
  cases res with
  | ok us =>
    cases h : (processUpdates o.proc us st.offset).2.2 <;>
      simp [thenCatchStage, h]
  | error e => simp [thenCatchStage]

/-- A cycle never nulls `_lastRequest`; `_polling` sets it and completing
the cycle leaves it set. -/
theorem runCycle_lastRequest (st : State) (o : CycleOracle) :
    (runCycle st o).1.lastRequest = true := by
  simp [runCycle, cycleRemainder, finallyStage_lastRequest,
    thenCatchStage_lastRequest]

/-- C5 (counterexample): the claim says `isPolling()` returns false when
the controller is active but between cycles (previous cycle completed,
only the next-cycle timer pending).  But `_polling` never nulls
`_lastRequest` when a cycle completes — only `stop()` does
(`src/telegramPolling.js:65`) — so in exactly such a state, reached by
`start()` followed by one completed (empty-batch) cycle, `isPolling()`
still returns true. -/
theorem C5_counterexample :
    stBetween.isPollingActive = true ∧ stBetween.pollingTimeout = true ∧
      stBetween.lastRequest = true ∧ isPolling stBetween = true := by
  decide

/-- C5 (amended): `isPolling()` returns `!!this._lastRequest`, and
`_lastRequest` is non-null from the first cycle of a chain until `stop()`
nulls it: after any completed cycle (the between-cycles state) it is
still true, and it turns false exactly when `stop()` runs on that
state. -/
theorem C5_isPolling_tracks_lastRequest (st : State) (o : CycleOracle) :
    isPolling st = st.lastRequest ∧
      isPolling (runCycle st o).1 = true ∧
      isPolling (stop true (runCycle st o).1).1 = false := by
  refine ⟨rfl, ?_, ?_⟩
  · simp [isPolling, runCycle_lastRequest]
  · simp [stop, isPolling, runCycle_lastRequest]

/-- C6: `_getUpdates()` (`src/telegramPolling.js:181-190`).  When the
fetch fails with status 409 (`ANOTHER_WEB_HOOK_USED`) it performs exactly
one `unsetWebHook` call and exactly one retried fetch with the same
params, and the retry's outcome — success or failure — is surfaced as the
result (a failing retry propagates as a normal fetch error, as does a
failing unset).  Any other fetch error performs no unset and no retry. -/
theorem C6_webhook_conflict (off t : Int) (o : CycleOracle) (e : Err)
    (hf : o.fetch1 = .error e) :
    (e.statusCode = some ANOTHER_WEB_HOOK_USED → o.unset = .ok () →
      getUpdatesRun off t o =
        (o.fetch2, [.fetch off none t, .unsetWebHook, .fetch off none t])) ∧
    (e.statusCode = some ANOTHER_WEB_HOOK_USED → ∀ e2 : Err,
      o.unset = .error e2 →
      getUpdatesRun off t o =
        (.error e2, [.fetch off none t, .unsetWebHook])) ∧
    (e.statusCode ≠ some ANOTHER_WEB_HOOK_USED →
      getUpdatesRun off t o = (.error e, [.fetch off none t])) := by
  refine ⟨?_, ?_, ?_⟩
  · intro h409 hunset
    simp [getUpdatesRun, hf, h409, hunset]
  · intro h409 e2 hunset
    simp [getUpdatesRun, hf, h409, hunset]
  · intro hother
    simp [getUpdatesRun, hf, hother]

/-- C6 (witness): a 409-failing fetch whose retry fails with status 500:
one unset, one retry, and the retry's error is the surfaced result. -/
theorem C6_webhook_conflict_witness :
    getUpdatesRun 0 10
        { fetch1 := .error { statusCode := some 409 },
          unset := .ok (),
          fetch2 := .error { statusCode := some 500 } } =
      (.error { statusCode := some 500 },
       [.fetch 0 none 10, .unsetWebHook, .fetch 0 none 10]) := by
  have h := (C6_webhook_conflict 0 10
      { fetch1 := .error { statusCode := some 409 },
        unset := .ok (),
        fetch2 := .error { statusCode := some 500 } }
      { statusCode := some 409 } rfl).1 rfl rfl
  simpa using h

/-- C7: `_handleProcessingError` (`src/telegramPolling.js:108-121`) and
its interaction with the loop.  With `badRejection` unset, a processing
error yields exactly the one-element error report and no getUpdates call.
With it set, exactly one additional `getUpdates({offset, limit: 1,
timeout: 0})` call at the current offset precedes the error report.  If
that recovery fetch fails, a `FatalError` is emitted on the distinct
`error` channel — and at the cycle level the loop still ends with a
reschedule. -/
theorem C7_processing_error_recovery (hl : Bool) (off : Int)
    (rec : Except Err (List Update)) (st : State) (o : CycleOracle)
    (u : Update) (e r : Err)
    (hbr : st.badRejection = true) (hab : st.abort = false)
    (hf : o.fetch1 = .ok [u]) (hp : o.proc u = .error e)
    (hrec : o.recovery = .error r) :
    (handleProcessingError false hl off rec = errorReport hl ∧
      (errorReport hl).filter Effect.isFetch = [] ∧
      (errorReport hl).length = 1) ∧
    (∀ us : List Update,
      handleProcessingError true hl off (.ok us)
          = .fetch off (some 1) 0 :: errorReport hl ∧
        (handleProcessingError true hl off (.ok us)).filter Effect.isFetch
          = [.fetch off (some 1) 0]) ∧
    (handleProcessingError true hl off (.error r)
        = [.fetch off (some 1) 0, .consoleError, .consoleError,
           .consoleError, .emitFatalError]) ∧
    ((runCycle st o).2 =
        [.fetch st.offset none st.timeoutParam,
         .processUpdate u (u.update_id + 1),
         .fetch (u.update_id + 1) (some 1) 0,
         .consoleError, .consoleError, .consoleError, .emitFatalError,
         .schedule st.interval] ∧
      (runCycle st o).1.pollingTimeout = true) := by
  refine ⟨⟨rfl, ?_, ?_⟩, ?_, rfl, ?_, ?_⟩
  · cases hl <;> simp [errorReport, Effect.isFetch]
  · cases hl <;> simp [errorReport]
  · intro us
    constructor
    · rfl
    · cases hl <;> simp [handleProcessingError, errorReport, Effect.isFetch]
  · simp [runCycle, cycleRemainder, getUpdatesRun, hf, thenCatchStage,
      processUpdates, hp, catchStage, handleProcessingError, hbr, hrec,
      finallyStage, hab]
  · simp [runCycle, cycleRemainder, getUpdatesRun, hf, thenCatchStage,
      processUpdates, hp, catchStage, handleProcessingError, hbr, hrec,
      finallyStage, hab]

/-- C7 (witness): a fresh controller with `badRejection` set, batch
`[{update_id: 5}]`, throwing processor and failing recovery fetch: one
main fetch, one processor call, one limit-1 recovery fetch at offset 6,
the fatal emission, and the reschedule. -/
theorem C7_processing_error_recovery_witness :
    (runCycle { initialState with badRejection := true }
        { fetch1 := .ok [⟨5⟩], proc := fun _ => .error {},
          recovery := .error {} }).2 =
      [.fetch 0 none 10, .processUpdate ⟨5⟩ 6, .fetch 6 (some 1) 0,
       .consoleError, .consoleError, .consoleError, .emitFatalError,
       .schedule 300] := by
  have h := (C7_processing_error_recovery false 0 (.ok [])
      { initialState with badRejection := true }
      { fetch1 := .ok [⟨5⟩], proc := fun _ => .error {},
        recovery := .error {} }
      ⟨5⟩ {} {} rfl rfl rfl rfl rfl).2.2.2.1
  simpa using h

/-- The `_getUpdates` never schedules a timer. -/
theorem filterSchedule_getUpdatesRun (off t : Int) (o : CycleOracle) :
    ((getUpdatesRun off t o).2).filter Effect.isSchedule = [] := by
  unfold getUpdatesRun
  cases o.fetch1 with
  | ok us => simp [Effect.isSchedule]
  | error e =>
    by_cases h : e.statusCode = some ANOTHER_WEB_HOOK_USED
    · cases o.unset <;> simp [h, Effect.isSchedule]
    · simp [h, Effect.isSchedule]

/-- Batch processing never schedules a timer. -/
theorem filterSchedule_processUpdates (proc : Update → Except Err Unit) :
    ∀ (us : List Update) (off : Int),
      ((processUpdates proc us off).2.1).filter Effect.isSchedule = []
  | [], off => by simp [processUpdates]
  | u :: rest, off => by
    cases hu : proc u with
    | ok v =>
      simp [processUpdates, hu, Effect.isSchedule,
        filterSchedule_processUpdates proc rest (u.update_id + 1)]
    | error e => simp [processUpdates, hu, Effect.isSchedule]

/-- The `_error` never schedules a timer. -/
theorem filterSchedule_errorReport (hl : Bool) :
    (errorReport hl).filter Effect.isSchedule = [] := by
  cases hl <;> simp [errorReport, Effect.isSchedule]

/-- The `_handleProcessingError` never schedules a timer. -/
theorem filterSchedule_handleProcessingError (b hl : Bool) (off : Int)
    (rec : Except Err (List Update)) :
    (handleProcessingError b hl off rec).filter Effect.isSchedule = [] := by
  cases b with
  | false => simp [handleProcessingError, filterSchedule_errorReport]
  | true =>
    cases rec <;>
      simp [handleProcessingError, Effect.isSchedule,
        filterSchedule_errorReport]

/-- The `catch` stage never schedules a timer. -/
theorem filterSchedule_catchStage (st : State) (o : CycleOracle) (e : Err) :
    (catchStage st o e).filter Effect.isSchedule = [] := by
  by_cases h : e.processing = false <;>
    simp [catchStage, h, filterSchedule_errorReport,
      filterSchedule_handleProcessingError]

/-- The `then`/`catch` stages never schedule a timer. -/
theorem filterSchedule_thenCatchStage (st : State) (o : CycleOracle)
    (res : Except Err (List Update)) :
    ((thenCatchStage st o res).2).filter Effect.isSchedule = [] := by
  cases res with
  | ok us =>
    cases h : (processUpdates o.proc us st.offset).2.2 <;>
      simp [thenCatchStage, h, filterSchedule_processUpdates,
        filterSchedule_catchStage, List.filter_append]
  | error e => simp [thenCatchStage, filterSchedule_catchStage]

/-- One cycle's scheduling behavior: the only `setTimeout` is the one the
`finally` stage performs when `_abort` is unset, it is the cycle's last
action, and with `_abort` set there is none and the chain ends. -/
theorem cycleRemainder_reschedule (st : State) (o : CycleOracle) :
    ((cycleRemainder st o).2.filter Effect.isSchedule
        = if st.abort then [] else [.schedule st.interval]) ∧
    (st.abort = false →
      (cycleRemainder st o).2.getLast? = some (.schedule st.interval)) ∧
    ((cycleRemainder st o).1.pollingTimeout
        = if st.abort then st.pollingTimeout else true) ∧
    ((cycleRemainder st o).1.chains
        = if st.abort then st.chains - 1 else st.chains) := by
  unfold cycleRemainder
  have h1 := thenCatchStage_abort st o
    (getUpdatesRun st.offset st.timeoutParam o).1
  have h2 := thenCatchStage_interval st o
    (getUpdatesRun st.offset st.timeoutParam o).1
  have h3 := thenCatchStage_pollingTimeout st o
    (getUpdatesRun st.offset st.timeoutParam o).1
  have h4 := thenCatchStage_chains st o
    (getUpdatesRun st.offset st.timeoutParam o).1
  cases hab : st.abort with
  | false =>
    simp [finallyStage, h1, hab, h2, h3, h4, List.filter_append,
      filterSchedule_getUpdatesRun, filterSchedule_thenCatchStage,
      Effect.isSchedule, ← List.append_assoc, List.getLast?_concat]
  | true =>
    simp [finallyStage, h1, hab, h2, h3, h4, List.filter_append,
      filterSchedule_getUpdatesRun, filterSchedule_thenCatchStage]

/-- C8: every cycle invocation — whatever its fetch / process /
error-handling path did — ends by scheduling the next invocation after
`interval` milliseconds as its final action, unless `_abort` was
requested, in which case nothing is scheduled and the chain ends
(`src/telegramPolling.js:155-162`). -/
theorem C8_reschedule (st : State) (o : CycleOracle) :
    ((runCycle st o).2.filter Effect.isSchedule
        = if st.abort then [] else [.schedule st.interval]) ∧
    (st.abort = false →
      (runCycle st o).2.getLast? = some (.schedule st.interval) ∧
      (runCycle st o).1.pollingTimeout = true) ∧
    (st.abort = true →
      (runCycle st o).1.pollingTimeout = false ∧
      (runCycle st o).1.chains = st.chains - 1) := by
  have h := cycleRemainder_reschedule
    { st with lastRequest := true, pollingTimeout := false } o
  refine ⟨?_, fun hab => ⟨?_, ?_⟩, fun hab => ⟨?_, ?_⟩⟩ <;>
    simp_all [runCycle]

/-- C8 (witness): a fresh controller's empty cycle ends with the default
300 ms reschedule; with `_abort` set no timer is left pending. -/
theorem C8_reschedule_witness :
    (runCycle initialState (okOracle [])).2.getLast?
        = some (.schedule 300) ∧
      (runCycle { initialState with abort := true }
          (okOracle [])).1.pollingTimeout = false := by
  refine ⟨((C8_reschedule initialState (okOracle [])).2.1 rfl).1, ?_⟩
  exact ((C8_reschedule { initialState with abort := true }
    (okOracle [])).2.2 rfl).1

/-- C9: per-update offset bookkeeping (`src/telegramPolling.js:135-143`).
Every processor invocation happens with the offset already advanced to
that update's id plus one; a throwing processor stops the batch — only
the failed update was invoked — with the error tagged `_processing`; and
at the cycle level, for a single-update batch `{update_id}` with a
throwing processor and recovery disabled, the cycle ends with the offset
at `update_id + 1` (used as-is by the next fetch), a plain error report
and the usual reschedule. -/
theorem C9_offset_before_processor (proc : Update → Except Err Unit)
    (u : Update) (rest : List Update) (e : Err) (off : Int)
    (st : State) (o : CycleOracle)
    (hpu : proc u = .error e)
    (hbr : st.badRejection = false) (hab : st.abort = false)
    (hf : o.fetch1 = .ok [u]) (hop : o.proc u = .error e) :
    (∀ (us : List Update) (off2 : Int) (v : Update) (ov : Int),
        Effect.processUpdate v ov ∈ (processUpdates proc us off2).2.1 →
        ov = v.update_id + 1) ∧
    processUpdates proc (u :: rest) off =
      (u.update_id + 1, [.processUpdate u (u.update_id + 1)],
       some { e with processing := true }) ∧
    (runCycle st o).1.offset = u.update_id + 1 ∧
    (runCycle st o).2 =
      .fetch st.offset none st.timeoutParam ::
        .processUpdate u (u.update_id + 1) ::
          (errorReport st.hasPollingErrorListeners
            ++ [.schedule st.interval]) := by
  refine ⟨processUpdates_offset_at_call proc, ?_, ?_, ?_⟩
  · simp [processUpdates, hpu]
  · simp [runCycle, cycleRemainder, getUpdatesRun, hf, thenCatchStage,
      processUpdates, hop, catchStage, handleProcessingError, hbr,
      finallyStage_offset]
  · simp [runCycle, cycleRemainder, getUpdatesRun, hf, thenCatchStage,
      processUpdates, hop, catchStage, handleProcessingError, hbr,
      finallyStage, hab]

/-- C9 (witness): the spec's scenario — batch `[{update_id: 5}]` with a
throwing processor, recovery disabled: offset is 6 at (and after) the
throw, only that one invocation happened, the error is tagged. -/
theorem C9_offset_before_processor_witness :
    (runCycle initialState oThrow5).1.offset = 6 ∧
      processUpdates (fun _ => .error {}) [⟨5⟩] 0 =
        (6, [.processUpdate ⟨5⟩ 6], some { processing := true }) := by
  have h := C9_offset_before_processor (fun _ => .error {}) ⟨5⟩ [] {} 0
    initialState oThrow5 rfl rfl rfl rfl rfl
  exact ⟨by simpa using h.2.2.1, by simpa using h.2.1⟩

/-- The `finallyStage` leaves `_abort` unchanged (only `stopFinalize` clears
it). -/
theorem finallyStage_abort (st : State) :
    (finallyStage st).1.abort = st.abort := by
  cases h : st.abort <;> simp [finallyStage, h]

/-- A cycle leaves `_abort` unchanged. -/
theorem runCycle_abort (st : State) (o : CycleOracle) :
    (runCycle st o).1.abort = st.abort := by
  simp [runCycle, cycleRemainder, finallyStage_abort, thenCatchStage_abort]

/-- A cycle leaves `_isPollingActive` unchanged. -/
theorem runCycle_isPollingActive (st : State) (o : CycleOracle) :
    (runCycle st o).1.isPollingActive = st.isPollingActive := by
  simp [runCycle, cycleRemainder, finallyStage_isPollingActive,
    thenCatchStage_isPollingActive]

/-- With `_abort` unset, a cycle ends rescheduled: the timer is pending
and the chain count is unchanged. -/
theorem runCycle_reschedules (st : State) (o : CycleOracle)
    (hab : st.abort = false) :
    (runCycle st o).1.pollingTimeout = true ∧
    (runCycle st o).1.chains = st.chains := by
  have h := cycleRemainder_reschedule
    { st with lastRequest := true, pollingTimeout := false } o
  have h3 := h.2.2.1
  have h4 := h.2.2.2
  simp [hab] at h3 h4
  exact ⟨by simpa [runCycle, hab] using h3, by simpa [runCycle, hab] using h4⟩

/-- After a cycle the next-cycle timer is pending iff `_abort` was
unset. -/
theorem runCycle_pollingTimeout (st : State) (o : CycleOracle) :
    (runCycle st o).1.pollingTimeout = !st.abort := by
  have h := (cycleRemainder_reschedule
    { st with lastRequest := true, pollingTimeout := false } o).2.2.1
  cases hab : st.abort <;> simpa [runCycle, hab] using h

/-- A cycle ends the chain exactly when `_abort` was set. -/
theorem runCycle_chains (st : State) (o : CycleOracle) :
    (runCycle st o).1.chains
        = if st.abort then st.chains - 1 else st.chains := by
  have h := (cycleRemainder_reschedule
    { st with lastRequest := true, pollingTimeout := false } o).2.2.2
  cases hab : st.abort <;> simpa [runCycle, hab] using h

/-- C10: `start({restart: true})` while active
(`src/telegramPolling.js:41-44`) emits `polling_restart`, performs the
cancelling stop — which clears `_isPollingActive` — and relaunches a
cycle chain without ever re-setting the flag.  The resulting state has a
live, rescheduled chain yet `_isPollingActive = false`, so a subsequent
plain `start()` is not a no-op: it emits `polling_started` again and
launches a second concurrent cycle chain. -/
theorem C10_restart_clears_active (st : State) (o o2 : CycleOracle)
    (hact : st.isPollingActive = true) (hreq : st.lastRequest = true)
    (hab : st.abort = false) (hch : 1 ≤ st.chains) :
    (start true st o).1.isPollingActive = false ∧
    (start true st o).1.pollingTimeout = true ∧
    (start true st o).1.chains = st.chains ∧
    (start true st o).2.1.head? = some (.emit "polling_restart") ∧
    (start false (start true st o).1 o2).2.1.head?
        = some (.emit "polling_started") ∧
    (start false (start true st o).1 o2).1.chains = st.chains + 1 := by
  have hact2 : (start true st o).1.isPollingActive = false := by
    simp [start, hact, stop, hreq, runCycle_isPollingActive]
  have habR : (start true st o).1.abort = false := by
    simp [start, hact, stop, hreq, runCycle_abort, hab]
  have hchR : (start true st o).1.chains = st.chains := by
    simp [start, hact, stop, hreq, runCycle_chains, hab]
    omega
  refine ⟨hact2, ?_, hchR, ?_, ?_, ?_⟩
  · simp [start, hact, stop, hreq, runCycle_pollingTimeout, hab]
  · simp [start, hact]
  · set stR := (start true st o).1 with hR
    simp [start, hact2]
  · set stR := (start true st o).1 with hR
    simp [start, hact2, runCycle_chains, habR, hchR]

/-- C10 (witness): the concrete active in-flight controller: after
`start({restart: true})` the active flag is false with one live chain,
and a second `start()` emits `polling_started` and brings the chain
count to two. -/
theorem C10_restart_clears_active_witness :
    (start true stActive (okOracle [])).1.isPollingActive = false ∧
    (start false
        (start true stActive (okOracle [])).1 (okOracle [])).1.chains
      = 2 := by
  have h := C10_restart_clears_active stActive (okOracle []) (okOracle [])
    rfl rfl rfl (by decide)
  exact ⟨h.1, h.2.2.2.2.2⟩
